import Mathlib

/-!
Verification of the Frontier backend (src/backend/main.py and
src/backend/firebase_service.py) against its natural-language
specification.  Python strings are modelled as Lean `String`
(sequences of code points), Python `time.time()` instants as `ℤ`
(the rate-limit logic only compares differences of instants against the
window length, so an ordered ring of instants is all that is used),
Python dictionaries keyed by strings as total functions
`String → List _` (defaultdict semantics) or `String → Option _`,
and exceptions as `Except Unit`.  External collaborators (the
identity provider, the OpenAlex search API, the Groq completion
API, the Firestore document store and the `hashlib.md5` digest)
are oracle parameters.
-/

/-- Python single-character whitespace test, the character class used by
`str.strip()` for ASCII input. -/
def pyIsSpace (c : Char) : Bool :=
  c == ' ' || c == '\t' || c == '\n' || c == '\r' || c == '\x0b' || c == '\x0c'

/-- Python `s.strip()`: drop leading and trailing whitespace. -/
def pyStrip (s : String) : String :=
  ⟨((s.data.dropWhile pyIsSpace).reverse.dropWhile pyIsSpace).reverse⟩

/-- Python truthiness of an optional string (`None` and `""` are falsy). -/
def pyTruthy : Option String → Bool
  | none => false
  | some s => decide (s ≠ "")

/-- Python `s.split(sep)` for a single-character separator, on the
underlying character list. -/
def splitChar (sep : Char) (s : List Char) : List (List Char) :=
  s.foldr
    (fun c acc =>
      if c = sep then [] :: acc
      else
        match acc with
        | [] => [[c]]
        | g :: gs => (c :: g) :: gs)
    [[]]

/-- Python `s.split(sep)` for a single-character separator. -/
def pySplit (sep : Char) (s : String) : List String :=
  (splitChar sep s.data).map String.mk

/-- Python `s.startswith(p)`. -/
def pyStartsWith (s p : String) : Bool :=
  p.data.isPrefixOf s.data

/-- The characters Firestore forbids in a document id, as listed in the
regular expression of firebase_service.py line 72. -/
def forbidden_chars : List Char := ['/', '\\', '.', '#', '[', ']', '*', '?']

/-- firebase_service.py line 72: the regex substitution replacing every
forbidden character by an underscore. -/
def replace_forbidden (s : String) : String :=
  ⟨s.data.map (fun c => if forbidden_chars.contains c then '_' else c)⟩

/-- firebase_service.py lines 60-81, `sanitize_paper_id`.  `md5hex` is the
oracle for `hashlib.md5(x.encode()).hexdigest()`. -/
def sanitize_paper_id (md5hex : String → String) (paper_id : String) : String :=
  if pyStartsWith paper_id "https://openalex.org/" then
    (pySplit '/' paper_id).getLastD ""
  else
    let sanitized := replace_forbidden paper_id
    if sanitized = "" ∨ sanitized.length > 1000 then md5hex paper_id
    else sanitized

example : pySplit '/' "https://openalex.org/" = ["https:", "", "openalex.org", ""] := by decide
example : sanitize_paper_id (fun _ => "h") "https://openalex.org/W123" = "W123" := by decide
example : sanitize_paper_id (fun _ => "h") "a/b.c" = "a_b_c" := by decide
example : pyStrip "  a b  " = "a b" := by decide
example : pyStrip " \t " = "" := by decide

/-- Point update of a string-keyed map, as Python `m[k] = v`. -/
def updMap {α : Type} (m : String → α) (k : String) (v : α) : String → α :=
  fun q => if q = k then v else m q

theorem updMap_same {α : Type} (m : String → α) (k : String) (v : α) :
    updMap m k v k = v := by
  simp [updMap]

/-- A cached summary document as written by `set_summary_cache`
(firebase_service.py lines 118-122); the Firestore server timestamp field
is set by the store and carries no information modelled here. -/
structure CacheDoc where
  summary : String
  original_paper_id : String
deriving DecidableEq

/-- State of the Firestore dependency: `unavailable` models
`init_firebase` returning `None`, `erroring` models document operations
raising, and `ready docs` models a reachable store holding `docs`
(keyed by sanitized document id). -/
inductive StoreState where
  | unavailable : StoreState
  | erroring : StoreState
  | ready : (String → Option CacheDoc) → StoreState

/-- firebase_service.py lines 13-58: returns the client, or `None` when
initialization failed. -/
def init_firebase : StoreState → Option StoreState
  | StoreState.unavailable => none
  | s => some s

/-- A raw Firestore document read, which raises unless the store is ready. -/
def firestore_get (store : StoreState) (key : String) : Except Unit (Option CacheDoc) :=
  match store with
  | StoreState.ready docs => Except.ok (docs key)
  | _ => Except.error ()

/-- A raw Firestore document write, which raises unless the store is ready. -/
def firestore_set (store : StoreState) (key : String) (doc : CacheDoc) :
    Except Unit StoreState :=
  match store with
  | StoreState.ready docs => Except.ok (StoreState.ready (updMap docs key (some doc)))
  | _ => Except.error ()

/-- firebase_service.py lines 83-103, `get_summary_cache`: `None` when the
store is unavailable, the document (or `None` when absent) on success, and
`None` again when the read raises (the except branch at line 101). -/
def get_summary_cache (md5hex : String → String) (store : StoreState)
    (paper_id : String) : Except Unit (Option CacheDoc) :=
  match init_firebase store with
  | none => Except.ok none
  | some s =>
    match firestore_get s (sanitize_paper_id md5hex paper_id) with
    | Except.ok d => Except.ok d
    | Except.error _ => Except.ok none

/-- firebase_service.py lines 105-127, `set_summary_cache`: writes the
document and returns `True`; returns `True` with no write when the store
is unavailable (line 113) or when the write raises (line 127). -/
def set_summary_cache (md5hex : String → String) (store : StoreState)
    (paper_id summary : String) : Except Unit (Bool × StoreState) :=
  match init_firebase store with
  | none => Except.ok (true, store)
  | some s =>
    match firestore_set s (sanitize_paper_id md5hex paper_id)
        ⟨summary, paper_id⟩ with
    | Except.ok s2 => Except.ok (true, s2)
    | Except.error _ => Except.ok (true, store)

/-- main.py lines 53-55. -/
def GUEST_LIMIT : ℕ := 5

/-- main.py line 54. -/
def USER_LIMIT : ℕ := 50

/-- main.py line 55, the sliding window in seconds. -/
def WINDOW_SECONDS : ℤ := 3600

/-- The in-memory quota ledger of main.py lines 27-28: two defaultdicts
from identity key to the list of admitted timestamps. -/
structure QuotaState where
  user_summary_usage : String → List ℤ
  guest_summary_usage : String → List ℤ

/-- The list comprehension `[ts for ts in l if now - ts < WINDOW_SECONDS]`
used at main.py lines 77-79, 88-90, 206-208 and 226-228. -/
def prune (now : ℤ) (ts : List ℤ) : List ℤ :=
  ts.filter (fun t => decide (now - t < WINDOW_SECONDS))

/-- main.py lines 71-92, `get_remaining_summaries`; returns the remaining
count together with the ledger after its pruning side effect. -/
def get_remaining_summaries (st : QuotaState) (now : ℤ) (logged_in : Bool)
    (user_id : Option String) (ip : String) : ℤ × QuotaState :=
  if logged_in && pyTruthy user_id then
    let uid := user_id.getD ""
    let pruned := prune now (st.user_summary_usage uid)
    (max 0 ((USER_LIMIT : ℤ) - pruned.length),
     { st with user_summary_usage := updMap st.user_summary_usage uid pruned })
  else
    let pruned := prune now (st.guest_summary_usage ip)
    (max 0 ((GUEST_LIMIT : ℤ) - pruned.length),
     { st with guest_summary_usage := updMap st.guest_summary_usage ip pruned })

/-- main.py lines 57-69, `get_user_from_request`.  `verify` is the oracle
for `auth.verify_id_token`; its success value is `decoded_token.get("uid")`,
which may be `None`. -/
def get_user_from_request (auth_header : Option String)
    (verify : String → Except Unit (Option String)) : Bool × Option String :=
  match auth_header with
  | some h =>
    if pyStartsWith h "Bearer " then
      let token := (pySplit ' ' h).getD 1 ""
      match verify token with
      | Except.ok uid => (true, uid)
      | Except.error _ => (false, none)
    else (false, none)
  | none => (false, none)

/-- The body model of main.py lines 32-37 (`SummarizeRequest`); `published`
is kept as its string rendering since only its truthiness and `str()` form
are ever used. -/
structure SummarizeRequest where
  paper_id : String
  abstract : String
  title : String := ""
  authors : List String := []
  published : String := ""

/-- The possible responses of the `POST /summarize-paper` handler:
an `HTTPException` (status, remaining count quoted in its detail), a
200 error payload, or a 200 summary payload. -/
inductive SummarizeResponse where
  | httpError : ℕ → ℤ → SummarizeResponse
  | errorBody : String → SummarizeResponse
  | summaryBody : String → Bool → ℤ → SummarizeResponse
deriving DecidableEq

/-- The HTTP status a `SummarizeResponse` is served with: plain returns
are 200, an `HTTPException` carries its own status code. -/
def statusOf : SummarizeResponse → ℕ
  | SummarizeResponse.httpError s _ => s
  | _ => 200

/-- main.py lines 241-319: the part of `summarize_paper` after rate-limit
admission — abstract validation, cache lookup, Groq generation
(`groq` is the oracle for the completion call), best-effort cache write,
and response assembly. -/
def summarize_body (md5hex : String → String) (st2 : QuotaState)
    (store : StoreState) (now : ℤ) (logged_in : Bool)
    (user_id : Option String) (ip : String) (req : SummarizeRequest)
    (groq : Except String String) :
    Except Unit (SummarizeResponse × QuotaState × StoreState) :=
  if req.abstract = "" ∨ pyStrip req.abstract = "" then
    Except.ok (SummarizeResponse.errorBody
      "Cannot summarize: No abstract available for this paper", st2, store)
  else
    match get_summary_cache md5hex store req.paper_id with
    | Except.error e => Except.error e
    | Except.ok (some doc) =>
      let r := get_remaining_summaries st2 now logged_in user_id ip
      Except.ok (SummarizeResponse.summaryBody doc.summary true r.fst, r.snd, store)
    | Except.ok none =>
      match groq with
      | Except.error e =>
        Except.ok (SummarizeResponse.errorBody
          ("Failed to generate summary: " ++ e), st2, store)
      | Except.ok summary =>
        let store2 :=
          match set_summary_cache md5hex store req.paper_id summary with
          | Except.ok p => p.snd
          | Except.error _ => store
        let r := get_remaining_summaries st2 now logged_in user_id ip
        Except.ok (SummarizeResponse.summaryBody summary false r.fst, r.snd, store2)

/-- main.py lines 197-319, `summarize_paper`: rate-limit admission
(lines 203-239) followed by `summarize_body`.  `logged_in` and `user_id`
are the output of `get_user_from_request`, `now` is `time.time()`. -/
def summarize_paper (md5hex : String → String) (st : QuotaState)
    (store : StoreState) (now : ℤ) (logged_in : Bool)
    (user_id : Option String) (ip : String) (req : SummarizeRequest)
    (groq : Except String String) :
    Except Unit (SummarizeResponse × QuotaState × StoreState) :=
  if logged_in && pyTruthy user_id then
    let uid := user_id.getD ""
    let pruned := prune now (st.user_summary_usage uid)
    let st1 : QuotaState :=
      { st with user_summary_usage := updMap st.user_summary_usage uid pruned }
    if USER_LIMIT ≤ pruned.length then
      let r := get_remaining_summaries st1 now logged_in user_id ip
      Except.ok (SummarizeResponse.httpError 429 r.fst, r.snd, store)
    else
      let upd2 := updMap st1.user_summary_usage uid (pruned ++ [now])
      let st2 : QuotaState := { st1 with user_summary_usage := upd2 }
      summarize_body md5hex st2 store now logged_in user_id ip req groq
  else
    let pruned := prune now (st.guest_summary_usage ip)
    let st1 : QuotaState :=
      { st with guest_summary_usage := updMap st.guest_summary_usage ip pruned }
    if GUEST_LIMIT ≤ pruned.length then
      let r := get_remaining_summaries st1 now logged_in user_id ip
      Except.ok (SummarizeResponse.httpError 429 r.fst, r.snd, store)
    else
      let upd2 := updMap st1.guest_summary_usage ip (pruned ++ [now])
      let st2 : QuotaState := { st1 with guest_summary_usage := upd2 }
      summarize_body md5hex st2 store now logged_in user_id ip req groq

/-- An OpenAlex work record, reduced to the two fields the backend
inspects: the inverted-index abstract (a dict) and the plain abstract. -/
structure SearchResult where
  abstract_inverted_index : Option (List (String × List ℕ))
  abstract : Option String
deriving DecidableEq

/-- Python truthiness of `paper.get("abstract_inverted_index")`:
missing keys and empty dicts are falsy. -/
def truthyAII : Option (List (String × List ℕ)) → Bool
  | none => false
  | some d => !d.isEmpty

/-- Python truthiness of `paper.get("abstract")`: missing keys and empty
strings are falsy. -/
def truthyStr : Option String → Bool
  | none => false
  | some s => decide (s ≠ "")

/-- main.py line 190: the filter keeping only papers with an abstract in
either form. -/
def hasAbstract (p : SearchResult) : Bool :=
  truthyAII p.abstract_inverted_index || truthyStr p.abstract

/-- The possible JSON shapes returned by `GET /search-papers`: the
`\x7b"results": []\x7d` object of the empty-query branch, the bare array
of the success branch, and the `\x7b"error": ...\x7d` object of the
failure branch. -/
inductive SearchResponse where
  | resultsObj : List SearchResult → SearchResponse
  | arr : List SearchResult → SearchResponse
  | errorObj : String → SearchResponse
deriving DecidableEq

/-- Whether a `SearchResponse` is serialized as a bare JSON array. -/
def SearchResponse.isArr : SearchResponse → Bool
  | SearchResponse.arr _ => true
  | _ => false

/-- main.py lines 162-195, `search_papers`.  `api` is the oracle for the
OpenAlex request, taking the search query and the filter expression and
returning the parsed result list or a `RequestException` message.  The
second component records whether the external API was called. -/
def search_papers (query _sort year_filter : String)
    (api : String → String → Except String (List SearchResult)) :
    SearchResponse × Bool :=
  if pyStrip query = "" then (SearchResponse.resultsObj [], false)
  else
    let years := pySplit '-' year_filter
    let from_year := years.getD 0 ""
    let to_year := if years.length > 1 then years.getD 1 "" else from_year
    let filters := "from_publication_date:" ++ from_year ++
      "-01-01,to_publication_date:" ++ to_year ++ "-12-31,type:article"
    match api query filters with
    | Except.error e => (SearchResponse.errorObj e, true)
    | Except.ok results => (SearchResponse.arr (results.filter hasAbstract), true)

/-- A stand-in for a concrete md5 hex digest, used to instantiate the
`md5hex` oracle in concrete evaluations. -/
def md5stub : String → String := fun _ => "900150983cd24fb0d6963f7d28e17f72"

/-- Every character produced by `replace_forbidden` is outside the
forbidden set: forbidden characters become an underscore and all other
characters are kept unchanged. -/
theorem replace_forbidden_safe (s : String) :
    ∀ c ∈ (replace_forbidden s).data, forbidden_chars.contains c = false := by
  intro c hc
  have hdata : (replace_forbidden s).data
      = s.data.map (fun c => if forbidden_chars.contains c then '_' else c) := rfl
  rw [hdata] at hc
  rcases List.mem_map.mp hc with ⟨a, _, rfl⟩
  by_cases h : forbidden_chars.contains a = true
  · rw [if_pos h]; decide
  · rw [if_neg h]
    exact Bool.eq_false_iff.mpr h

/-- Claim C1, counterexample: on the OpenAlex-URL branch
`sanitize_paper_id` returns the trailing path segment unchecked, so the
input consisting of the bare prefix yields the empty string, and a URL
whose last segment contains a dot yields an output containing that
forbidden character. -/
theorem sanitize_url_branch_unsafe :
    sanitize_paper_id md5stub "https://openalex.org/" = "" ∧
    '.' ∈ (sanitize_paper_id md5stub "https://openalex.org/W1.2").data ∧
    forbidden_chars.contains '.' = true := by
  refine ⟨rfl, ?_, rfl⟩
  decide

/-- Claim C1 (amended): for every string input that does not start with
the OpenAlex URL prefix, the output of `sanitize_paper_id` is non-empty,
has length at most 1000 and contains none of the forbidden characters,
provided the md5 hex digest of the input has those properties (a real md5
hex digest is 32 lowercase hexadecimal characters, so it always does). -/
theorem sanitize_nonurl_output_safe (md5hex : String → String) (s : String)
    (hurl : pyStartsWith s "https://openalex.org/" = false)
    (hmd1 : md5hex s ≠ "")
    (hmd2 : (md5hex s).length ≤ 1000)
    (hmd3 : ∀ c ∈ (md5hex s).data, forbidden_chars.contains c = false) :
    sanitize_paper_id md5hex s ≠ "" ∧
    (sanitize_paper_id md5hex s).length ≤ 1000 ∧
    ∀ c ∈ (sanitize_paper_id md5hex s).data, forbidden_chars.contains c = false := by
  unfold sanitize_paper_id
  simp only [hurl, Bool.false_eq_true, if_false]
  by_cases h : replace_forbidden s = "" ∨ (replace_forbidden s).length > 1000
  · rw [if_pos h]
    exact ⟨hmd1, hmd2, hmd3⟩
  · rw [if_neg h]
    push_neg at h
    exact ⟨h.1, h.2, replace_forbidden_safe s⟩

/-- Claim C1, witness for the amended theorem at the concrete input
"10.1234/abc" with the md5 stand-in. -/
theorem sanitize_nonurl_output_safe_witness :
    pyStartsWith "10.1234/abc" "https://openalex.org/" = false ∧
    md5stub "10.1234/abc" ≠ "" ∧
    (md5stub "10.1234/abc").length ≤ 1000 ∧
    (∀ c ∈ (md5stub "10.1234/abc").data, forbidden_chars.contains c = false) ∧
    (sanitize_paper_id md5stub "10.1234/abc" ≠ "" ∧
     (sanitize_paper_id md5stub "10.1234/abc").length ≤ 1000 ∧
     ∀ c ∈ (sanitize_paper_id md5stub "10.1234/abc").data,
       forbidden_chars.contains c = false) :=
  ⟨by decide, by decide, by decide, by decide,
   sanitize_nonurl_output_safe md5stub "10.1234/abc"
     (by decide) (by decide) (by decide) (by decide)⟩

/-- Claim C2, counterexample: the empty-query branch of `search_papers`
returns the object shape (a dict with a results key), not the bare-array
shape the success branch returns, even though it does short-circuit
without calling the external API. -/
theorem search_empty_query_shape_mismatch :
    (search_papers "" "relevance" "2020-2025"
        (fun _ _ => Except.ok [SearchResult.mk none (some "a")])).fst
      = SearchResponse.resultsObj [] ∧
    SearchResponse.isArr (search_papers "" "relevance" "2020-2025"
        (fun _ _ => Except.ok [SearchResult.mk none (some "a")])).fst = false ∧
    (search_papers "" "relevance" "2020-2025"
        (fun _ _ => Except.ok [SearchResult.mk none (some "a")])).snd = false ∧
    SearchResponse.isArr (search_papers "q" "relevance" "2020-2025"
        (fun _ _ => Except.ok [SearchResult.mk none (some "a")])).fst = true :=
  ⟨rfl, rfl, rfl, rfl⟩

/-- Claim C2 (amended): for every query that is empty or whitespace-only,
`search_papers` short-circuits without calling the external API and
returns the object whose results key holds an empty list — an object
shape, not the bare array returned on success. -/
theorem search_empty_query_short_circuit (query sort year_filter : String)
    (api : String → String → Except String (List SearchResult))
    (h : pyStrip query = "") :
    search_papers query sort year_filter api
      = (SearchResponse.resultsObj [], false) := by
  unfold search_papers
  rw [if_pos h]

/-- Claim C2, witness at the whitespace-only query. -/
theorem search_empty_query_short_circuit_witness :
    pyStrip " \t " = "" ∧
    search_papers " \t " "relevance" "2020-2025"
        (fun _ _ => Except.ok [SearchResult.mk none (some "a")])
      = (SearchResponse.resultsObj [], false) :=
  ⟨by decide,
   search_empty_query_short_circuit " \t " "relevance" "2020-2025" _ (by decide)⟩

/-- Every timestamp surviving a prune is within the window. -/
theorem mem_prune {now : ℤ} {l : List ℤ} {t : ℤ} (h : t ∈ prune now l) :
    now - t < WINDOW_SECONDS := by
  unfold prune at h
  exact of_decide_eq_true (List.mem_filter.mp h).2

/-- Pruning twice at the same instant is the same as pruning once. -/
theorem prune_idem (now : ℤ) (l : List ℤ) :
    prune now (prune now l) = prune now l := by
  apply List.filter_eq_self.mpr
  intro a ha
  exact decide_eq_true (mem_prune ha)

/-- Appending the current instant to a pruned list keeps every element
inside the window. -/
theorem prune_append_now (now : ℤ) (l : List ℤ) :
    prune now (prune now l ++ [now]) = prune now l ++ [now] := by
  apply List.filter_eq_self.mpr
  intro a ha
  rcases List.mem_append.mp ha with h | h
  · exact decide_eq_true (mem_prune h)
  · have ha' : a = now := by simpa using h
    subst ha'
    exact decide_eq_true (by norm_num [WINDOW_SECONDS])

/-- `get_remaining_summaries` on an anonymous identity reads the guest
bucket of the caller's address. -/
theorem get_remaining_guest (st : QuotaState) (now : ℤ) (logged_in : Bool)
    (user_id : Option String) (ip : String)
    (h : (logged_in && pyTruthy user_id) = false) :
    get_remaining_summaries st now logged_in user_id ip
      = (max 0 ((GUEST_LIMIT : ℤ) - (prune now (st.guest_summary_usage ip)).length),
         { st with guest_summary_usage :=
             updMap st.guest_summary_usage ip (prune now (st.guest_summary_usage ip)) }) := by
  unfold get_remaining_summaries
  rw [h]
  simp

/-- `get_remaining_summaries` on an authenticated identity with a truthy
user id reads that user's bucket. -/
theorem get_remaining_user (st : QuotaState) (now : ℤ) (uid : String)
    (ip : String) (huid : uid ≠ "") :
    get_remaining_summaries st now true (some uid) ip
      = (max 0 ((USER_LIMIT : ℤ) - (prune now (st.user_summary_usage uid)).length),
         { st with user_summary_usage :=
             updMap st.user_summary_usage uid (prune now (st.user_summary_usage uid)) }) := by
  unfold get_remaining_summaries
  have h : (true && pyTruthy (some uid)) = true := by
    simp [pyTruthy, huid]
  rw [h]
  simp

/-- Claim C3: for an anonymous identity whose address bucket holds 5
admitted timestamps inside the sliding window, the 6th admission attempt
at the same instant is rejected by `summarize_paper` with an HTTP 429
carrying remaining = 0, and a subsequent remaining query also reads 0. -/
theorem guest_sixth_call_rejected (md5hex : String → String) (st : QuotaState)
    (store : StoreState) (now : ℤ) (ip : String) (req : SummarizeRequest)
    (groq : Except String String)
    (h5 : (prune now (st.guest_summary_usage ip)).length = GUEST_LIMIT) :
    ∃ st', summarize_paper md5hex st store now false none ip req groq
        = Except.ok (SummarizeResponse.httpError 429 0, st', store) ∧
      statusOf (SummarizeResponse.httpError 429 0) = 429 ∧
      (get_remaining_summaries st' now false none ip).fst = 0 := by
  unfold summarize_paper
  simp only [Bool.false_and, Bool.false_eq_true, if_false]
  rw [if_pos h5.ge]
  set st1 : QuotaState :=
    { st with guest_summary_usage :=
        updMap st.guest_summary_usage ip (prune now (st.guest_summary_usage ip)) }
    with hst1
  have hb : st1.guest_summary_usage ip = prune now (st.guest_summary_usage ip) := by
    rw [hst1]
    exact updMap_same _ _ _
  have hrem : ∀ st2 : QuotaState,
      st2.guest_summary_usage ip = prune now (st.guest_summary_usage ip) →
      (get_remaining_summaries st2 now false none ip).fst = 0 ∧
      (get_remaining_summaries st2 now false none ip).snd.guest_summary_usage ip
        = prune now (st.guest_summary_usage ip) := by
    intro st2 h2
    rw [get_remaining_guest st2 now false none ip rfl]
    constructor
    · simp [h2, prune_idem, h5, GUEST_LIMIT]
    · simp [updMap_same, h2, prune_idem]
  obtain ⟨h1, h2⟩ := hrem st1 hb
  refine ⟨(get_remaining_summaries st1 now false none ip).snd, ?_, rfl, (hrem _ h2).1⟩
  rw [h1]

/-- Claim C4: once the window has elapsed past every recorded timestamp
of an identity, a remaining query prunes the whole bucket and returns the
full limit — 50 for an authenticated user, 5 for an anonymous caller. -/
theorem remaining_resets_after_window (st : QuotaState) (now : ℤ)
    (uid ip : String) (huid : uid ≠ "")
    (hu : ∀ t ∈ st.user_summary_usage uid, WINDOW_SECONDS ≤ now - t)
    (hg : ∀ t ∈ st.guest_summary_usage ip, WINDOW_SECONDS ≤ now - t) :
    (get_remaining_summaries st now true (some uid) ip).fst = 50 ∧
    (get_remaining_summaries st now true (some uid) ip).snd.user_summary_usage uid = [] ∧
    (get_remaining_summaries st now false none ip).fst = 5 ∧
    (get_remaining_summaries st now false none ip).snd.guest_summary_usage ip = [] := by
  have hpu : prune now (st.user_summary_usage uid) = [] := by
    unfold prune
    apply List.filter_eq_nil_iff.mpr
    intro a ha
    simpa using not_lt.mpr (hu a ha)
  have hpg : prune now (st.guest_summary_usage ip) = [] := by
    unfold prune
    apply List.filter_eq_nil_iff.mpr
    intro a ha
    simpa using not_lt.mpr (hg a ha)
  refine ⟨?_, ?_, ?_, ?_⟩
  · rw [get_remaining_user st now uid ip huid, hpu]
    norm_num [USER_LIMIT]
  · rw [get_remaining_user st now uid ip huid, hpu]
    exact updMap_same _ _ _
  · rw [get_remaining_guest st now false none ip rfl, hpg]
    norm_num [GUEST_LIMIT]
  · rw [get_remaining_guest st now false none ip rfl, hpg]
    exact updMap_same _ _ _

/-- A concrete ledger with five in-window guest timestamps for address
1.2.3.4, used for concrete evaluation. -/
def stFiveGuest : QuotaState :=
  ⟨fun _ => [], fun k => if k = "1.2.3.4" then [1, 2, 3, 4, 5] else []⟩

/-- A concrete request body used for concrete evaluation. -/
def reqDemo : SummarizeRequest := ⟨"p", "abs", "", [], ""⟩

/-- Claim C3, witness: at instant 10, address 1.2.3.4 with admitted
timestamps 1..5 is rejected with 429 and remaining 0. -/
theorem guest_sixth_call_rejected_witness :
    (prune 10 (stFiveGuest.guest_summary_usage "1.2.3.4")).length = GUEST_LIMIT ∧
    ∃ st', summarize_paper md5stub stFiveGuest StoreState.unavailable 10 false none
        "1.2.3.4" reqDemo (Except.error "x")
        = Except.ok (SummarizeResponse.httpError 429 0, st', StoreState.unavailable) ∧
      statusOf (SummarizeResponse.httpError 429 0) = 429 ∧
      (get_remaining_summaries st' 10 false none "1.2.3.4").fst = 0 :=
  ⟨by decide,
   guest_sixth_call_rejected md5stub stFiveGuest StoreState.unavailable 10 "1.2.3.4"
     reqDemo (Except.error "x") (by decide)⟩

/-- A concrete ledger whose only timestamps are older than the window at
instant 0, used for concrete evaluation. -/
def stAgedOut : QuotaState :=
  ⟨fun k => if k = "u" then [-4000] else [], fun k => if k = "g" then [-5000] else []⟩

/-- Claim C4, witness: at instant 0, the user bucket holding only the
timestamp -4000 and the guest bucket holding only -5000 are both fully
pruned and the limits read 50 and 5. -/
theorem remaining_resets_after_window_witness :
    ("u" : String) ≠ "" ∧
    (∀ t ∈ stAgedOut.user_summary_usage "u", WINDOW_SECONDS ≤ 0 - t) ∧
    (∀ t ∈ stAgedOut.guest_summary_usage "g", WINDOW_SECONDS ≤ 0 - t) ∧
    ((get_remaining_summaries stAgedOut 0 true (some "u") "g").fst = 50 ∧
     (get_remaining_summaries stAgedOut 0 true (some "u") "g").snd.user_summary_usage "u" = [] ∧
     (get_remaining_summaries stAgedOut 0 false none "g").fst = 5 ∧
     (get_remaining_summaries stAgedOut 0 false none "g").snd.guest_summary_usage "g" = []) :=
  ⟨by decide, by decide, by decide,
   remaining_resets_after_window stAgedOut 0 "u" "g" (by decide) (by decide) (by decide)⟩

/-- Claim C5: on a reachable store, setting a summary for any id and then
getting the same id returns a record whose summary field is the stored
text — both operations key the store by the same sanitized id. -/
theorem cache_set_then_get (md5hex : String → String)
    (docs : String → Option CacheDoc) (paper_id S : String) :
    ∃ docs2,
      set_summary_cache md5hex (StoreState.ready docs) paper_id S
        = Except.ok (true, StoreState.ready docs2) ∧
      ∃ d, get_summary_cache md5hex (StoreState.ready docs2) paper_id
          = Except.ok (some d) ∧ d.summary = S := by
  refine ⟨updMap docs (sanitize_paper_id md5hex paper_id) (some ⟨S, paper_id⟩), rfl,
    ⟨S, paper_id⟩, ?_, rfl⟩
  simp [get_summary_cache, init_firebase, firestore_get, updMap_same]

/-- Claim C6: when the store is unavailable or its operations raise,
`get_summary_cache` returns the no-cache result and `set_summary_cache`
returns normally (no exception escapes to the caller). -/
theorem store_down_get_none_set_ok (md5hex : String → String)
    (store : StoreState) (paper_id S : String)
    (h : store = StoreState.unavailable ∨ store = StoreState.erroring) :
    get_summary_cache md5hex store paper_id = Except.ok none ∧
    ∃ st2, set_summary_cache md5hex store paper_id S = Except.ok (true, st2) := by
  rcases h with rfl | rfl
  · exact ⟨rfl, StoreState.unavailable, rfl⟩
  · exact ⟨rfl, StoreState.erroring, rfl⟩

/-- Claim C6, witness at the unavailable store. -/
theorem store_down_get_none_set_ok_witness :
    (StoreState.unavailable = StoreState.unavailable ∨
     StoreState.unavailable = StoreState.erroring) ∧
    (get_summary_cache md5stub StoreState.unavailable "p" = Except.ok none ∧
     ∃ st2, set_summary_cache md5stub StoreState.unavailable "p" "S"
        = Except.ok (true, st2)) :=
  ⟨Or.inl rfl,
   store_down_get_none_set_ok md5stub StoreState.unavailable "p" "S" (Or.inl rfl)⟩

/-- Claim C9: `set_summary_cache` returns True in every case — successful
write, unavailable store and raising store alike — so its result carries
no information about whether the write happened. -/
theorem set_cache_always_true (md5hex : String → String) (store : StoreState)
    (paper_id S : String) :
    ∃ st2, set_summary_cache md5hex store paper_id S = Except.ok (true, st2) := by
  cases store <;> exact ⟨_, rfl⟩

/-- Overwriting an entry twice keeps only the second value. -/
theorem updMap_updMap {α : Type} (m : String → α) (k : String) (a b : α) :
    updMap (updMap m k a) k b = updMap m k b := by
  funext q
  by_cases h : q = k <;> simp [updMap, h]

/-- For an authenticated identity under its limit, `summarize_paper`
admits the call: it appends the current instant to the user bucket and
proceeds to the post-admission body. -/
theorem summarize_user_under_limit (md5hex : String → String) (st : QuotaState)
    (store : StoreState) (now : ℤ) (uid ip : String) (req : SummarizeRequest)
    (groq : Except String String) (huid : uid ≠ "")
    (hu : (prune now (st.user_summary_usage uid)).length < USER_LIMIT) :
    summarize_paper md5hex st store now true (some uid) ip req groq
      = summarize_body md5hex
          ⟨updMap st.user_summary_usage uid (prune now (st.user_summary_usage uid) ++ [now]),
           st.guest_summary_usage⟩
          store now true (some uid) ip req groq := by
  unfold summarize_paper
  have hc : (true && pyTruthy (some uid)) = true := by simp [pyTruthy, huid]
  have hnot : ¬ (USER_LIMIT ≤ (prune now (st.user_summary_usage uid)).length) :=
    not_le.mpr hu
  simp only [hc, hnot, eq_self_iff_true, if_true, if_false, Option.getD_some]
  rw [updMap_updMap]

/-- For an anonymous identity under the guest limit, `summarize_paper`
admits the call: it appends the current instant to the guest bucket of
the caller's address and proceeds to the post-admission body. -/
theorem summarize_guest_under_limit (md5hex : String → String) (st : QuotaState)
    (store : StoreState) (now : ℤ) (logged_in : Bool) (user_id : Option String)
    (ip : String) (req : SummarizeRequest) (groq : Except String String)
    (hc : (logged_in && pyTruthy user_id) = false)
    (hg : (prune now (st.guest_summary_usage ip)).length < GUEST_LIMIT) :
    summarize_paper md5hex st store now logged_in user_id ip req groq
      = summarize_body md5hex
          ⟨st.user_summary_usage,
           updMap st.guest_summary_usage ip (prune now (st.guest_summary_usage ip) ++ [now])⟩
          store now logged_in user_id ip req groq := by
  unfold summarize_paper
  have hnot : ¬ (GUEST_LIMIT ≤ (prune now (st.guest_summary_usage ip)).length) :=
    not_le.mpr hg
  simp only [hc, hnot, Bool.false_eq_true, if_false]
  rw [updMap_updMap]

/-- Claim C7: for a request from an identity under its limit whose
abstract is empty or whitespace-only, admission happens first — the
current instant is appended to the identity's bucket — and the handler
then terminates with exactly the no-abstract error payload at HTTP 200,
in both the authenticated and the anonymous branch. -/
theorem empty_abstract_after_admission (md5hex : String → String)
    (st : QuotaState) (store : StoreState) (now : ℤ) (uid ip : String)
    (req : SummarizeRequest) (groq : Except String String) (huid : uid ≠ "")
    (hu : (prune now (st.user_summary_usage uid)).length < USER_LIMIT)
    (hg : (prune now (st.guest_summary_usage ip)).length < GUEST_LIMIT)
    (habs : req.abstract = "" ∨ pyStrip req.abstract = "") :
    (∃ st', summarize_paper md5hex st store now true (some uid) ip req groq
        = Except.ok (SummarizeResponse.errorBody
            "Cannot summarize: No abstract available for this paper", st', store) ∧
      st'.user_summary_usage uid = prune now (st.user_summary_usage uid) ++ [now]) ∧
    (∃ st', summarize_paper md5hex st store now false none ip req groq
        = Except.ok (SummarizeResponse.errorBody
            "Cannot summarize: No abstract available for this paper", st', store) ∧
      st'.guest_summary_usage ip = prune now (st.guest_summary_usage ip) ++ [now]) ∧
    statusOf (SummarizeResponse.errorBody
        "Cannot summarize: No abstract available for this paper") = 200 := by
  refine ⟨⟨⟨updMap st.user_summary_usage uid (prune now (st.user_summary_usage uid) ++ [now]),
      st.guest_summary_usage⟩, ?_, updMap_same _ _ _⟩,
    ⟨⟨st.user_summary_usage,
      updMap st.guest_summary_usage ip (prune now (st.guest_summary_usage ip) ++ [now])⟩,
      ?_, updMap_same _ _ _⟩, rfl⟩
  · rw [summarize_user_under_limit md5hex st store now uid ip req groq huid hu]
    unfold summarize_body
    rw [if_pos habs]
  · rw [summarize_guest_under_limit md5hex st store now false none ip req groq rfl hg]
    unfold summarize_body
    rw [if_pos habs]

/-- The empty ledger, used for concrete evaluation. -/
def stEmpty : QuotaState := ⟨fun _ => [], fun _ => []⟩

/-- A concrete request whose abstract is whitespace-only. -/
def reqBlankAbs : SummarizeRequest := ⟨"p", "  ", "", [], ""⟩

/-- Claim C7, witness: with empty buckets at instant 0 and a
whitespace-only abstract, both branches admit and then return the
no-abstract error payload. -/
theorem empty_abstract_after_admission_witness :
    ("u" : String) ≠ "" ∧
    (prune 0 (stEmpty.user_summary_usage "u")).length < USER_LIMIT ∧
    (prune 0 (stEmpty.guest_summary_usage "g")).length < GUEST_LIMIT ∧
    (reqBlankAbs.abstract = "" ∨ pyStrip reqBlankAbs.abstract = "") ∧
    ((∃ st', summarize_paper md5stub stEmpty StoreState.unavailable 0 true (some "u") "g"
          reqBlankAbs (Except.error "x")
        = Except.ok (SummarizeResponse.errorBody
            "Cannot summarize: No abstract available for this paper", st',
            StoreState.unavailable) ∧
      st'.user_summary_usage "u" = prune 0 (stEmpty.user_summary_usage "u") ++ [0]) ∧
    (∃ st', summarize_paper md5stub stEmpty StoreState.unavailable 0 false none "g"
          reqBlankAbs (Except.error "x")
        = Except.ok (SummarizeResponse.errorBody
            "Cannot summarize: No abstract available for this paper", st',
            StoreState.unavailable) ∧
      st'.guest_summary_usage "g" = prune 0 (stEmpty.guest_summary_usage "g") ++ [0]) ∧
    statusOf (SummarizeResponse.errorBody
        "Cannot summarize: No abstract available for this paper") = 200) :=
  ⟨by decide, by decide, by decide, by decide,
   empty_abstract_after_admission md5stub stEmpty StoreState.unavailable 0 "u" "g"
     reqBlankAbs (Except.error "x") (by decide) (by decide) (by decide) (by decide)⟩

/-- On integer casts, exhausting one more unit of a positive remaining
allowance lowers the clamped remaining count by exactly one. -/
theorem max_sub_succ (L u : ℕ) (h : u < L) :
    max 0 ((L : ℤ) - (u + 1 : ℕ)) = max 0 ((L : ℤ) - u) - 1 := by
  have h1 : (0:ℤ) ≤ (L:ℤ) - (u+1:ℕ) := by push_cast; omega
  have h2 : (0:ℤ) ≤ (L:ℤ) - u := by omega
  rw [max_eq_right h1, max_eq_right h2]
  push_cast
  ring

/-- Claim C8: for an admitted request that reaches generation and whose
completion call fails, the handler returns the generation error payload
(no exception) and the admitted timestamp stays in the bucket, so the
identity's remaining count is one lower than before the request — in both
the authenticated and the anonymous branch. -/
theorem groq_failure_no_refund (md5hex : String → String) (st : QuotaState)
    (store : StoreState) (now : ℤ) (uid ip : String) (req : SummarizeRequest)
    (e : String) (huid : uid ≠ "")
    (hu : (prune now (st.user_summary_usage uid)).length < USER_LIMIT)
    (hg : (prune now (st.guest_summary_usage ip)).length < GUEST_LIMIT)
    (habs : ¬(req.abstract = "" ∨ pyStrip req.abstract = ""))
    (hmiss : get_summary_cache md5hex store req.paper_id = Except.ok none) :
    (∃ st', summarize_paper md5hex st store now true (some uid) ip req (Except.error e)
        = Except.ok (SummarizeResponse.errorBody
            ("Failed to generate summary: " ++ e), st', store) ∧
      st'.user_summary_usage uid = prune now (st.user_summary_usage uid) ++ [now] ∧
      (get_remaining_summaries st' now true (some uid) ip).fst
        = (get_remaining_summaries st now true (some uid) ip).fst - 1) ∧
    (∃ st', summarize_paper md5hex st store now false none ip req (Except.error e)
        = Except.ok (SummarizeResponse.errorBody
            ("Failed to generate summary: " ++ e), st', store) ∧
      st'.guest_summary_usage ip = prune now (st.guest_summary_usage ip) ++ [now] ∧
      (get_remaining_summaries st' now false none ip).fst
        = (get_remaining_summaries st now false none ip).fst - 1) := by
  constructor
  · refine ⟨⟨updMap st.user_summary_usage uid (prune now (st.user_summary_usage uid) ++ [now]),
      st.guest_summary_usage⟩, ?_, updMap_same _ _ _, ?_⟩
    · rw [summarize_user_under_limit md5hex st store now uid ip req (Except.error e) huid hu]
      unfold summarize_body
      rw [if_neg habs, hmiss]
    · rw [get_remaining_user st now uid ip huid,
        get_remaining_user _ now uid ip huid]
      dsimp only
      rw [updMap_same, prune_append_now]
      simp only [List.length_append, List.length_singleton]
      exact max_sub_succ USER_LIMIT _ hu
  · refine ⟨⟨st.user_summary_usage,
      updMap st.guest_summary_usage ip (prune now (st.guest_summary_usage ip) ++ [now])⟩,
      ?_, updMap_same _ _ _, ?_⟩
    · rw [summarize_guest_under_limit md5hex st store now false none ip req (Except.error e) rfl hg]
      unfold summarize_body
      rw [if_neg habs, hmiss]
    · rw [get_remaining_guest st now false none ip rfl,
        get_remaining_guest _ now false none ip rfl]
      dsimp only
      rw [updMap_same, prune_append_now]
      simp only [List.length_append, List.length_singleton]
      exact max_sub_succ GUEST_LIMIT _ hg

/-- Claim C8, witness: with empty buckets at instant 0, a non-blank
abstract, an unavailable cache and a failing completion call, both
branches return the generation error and keep the admitted timestamp. -/
theorem groq_failure_no_refund_witness :
    ("u" : String) ≠ "" ∧
    (prune 0 (stEmpty.user_summary_usage "u")).length < USER_LIMIT ∧
    (prune 0 (stEmpty.guest_summary_usage "g")).length < GUEST_LIMIT ∧
    ¬(reqDemo.abstract = "" ∨ pyStrip reqDemo.abstract = "") ∧
    get_summary_cache md5stub StoreState.unavailable reqDemo.paper_id = Except.ok none ∧
    ((∃ st', summarize_paper md5stub stEmpty StoreState.unavailable 0 true (some "u") "g"
          reqDemo (Except.error "boom")
        = Except.ok (SummarizeResponse.errorBody
            ("Failed to generate summary: " ++ "boom"), st', StoreState.unavailable) ∧
      st'.user_summary_usage "u" = prune 0 (stEmpty.user_summary_usage "u") ++ [0] ∧
      (get_remaining_summaries st' 0 true (some "u") "g").fst
        = (get_remaining_summaries stEmpty 0 true (some "u") "g").fst - 1) ∧
    (∃ st', summarize_paper md5stub stEmpty StoreState.unavailable 0 false none "g"
          reqDemo (Except.error "boom")
        = Except.ok (SummarizeResponse.errorBody
            ("Failed to generate summary: " ++ "boom"), st', StoreState.unavailable) ∧
      st'.guest_summary_usage "g" = prune 0 (stEmpty.guest_summary_usage "g") ++ [0] ∧
      (get_remaining_summaries st' 0 false none "g").fst
        = (get_remaining_summaries stEmpty 0 false none "g").fst - 1)) :=
  ⟨by decide, by decide, by decide, by decide, rfl,
   groq_failure_no_refund md5stub stEmpty StoreState.unavailable 0 "u" "g" reqDemo "boom"
     (by decide) (by decide) (by decide) (by decide) rfl⟩

/-- Claim C10: when the bearer token verifies but the decoded token holds
no uid, the identity resolver returns (true, None); with that pair, the
summarize handler and the remaining computation behave exactly as for an
anonymous caller — the request is keyed by address in the guest bucket
with the guest limit of 5. -/
theorem verified_token_without_uid_uses_guest_bucket
    (verify : String → Except Unit (Option String)) (md5hex : String → String)
    (st : QuotaState) (store : StoreState) (now : ℤ) (ip : String)
    (req : SummarizeRequest) (groq : Except String String)
    (hv : verify "tok" = Except.ok none) :
    get_user_from_request (some "Bearer tok") verify = (true, none) ∧
    summarize_paper md5hex st store now true none ip req groq
      = summarize_paper md5hex st store now false none ip req groq ∧
    get_remaining_summaries st now true none ip
      = get_remaining_summaries st now false none ip ∧
    (get_remaining_summaries st now true none ip).fst
      = max 0 ((GUEST_LIMIT : ℤ) - (prune now (st.guest_summary_usage ip)).length) := by
  refine ⟨?_, rfl, rfl, ?_⟩
  · unfold get_user_from_request
    dsimp only
    rw [show pyStartsWith "Bearer tok" "Bearer " = true from rfl]
    rw [show (pySplit ' ' "Bearer tok").getD 1 "" = "tok" from rfl]
    rw [hv]
    rfl
  · rw [get_remaining_guest st now true none ip rfl]

/-- Claim C10, witness with a verifier that accepts every token but
reports no uid. -/
theorem verified_token_without_uid_uses_guest_bucket_witness :
    (fun _ : String => (Except.ok none : Except Unit (Option String))) "tok"
      = Except.ok none ∧
    (get_user_from_request (some "Bearer tok") (fun _ => Except.ok none)
      = (true, none) ∧
    summarize_paper md5stub stEmpty StoreState.unavailable 0 true none "g" reqDemo
        (Except.error "x")
      = summarize_paper md5stub stEmpty StoreState.unavailable 0 false none "g" reqDemo
        (Except.error "x") ∧
    get_remaining_summaries stEmpty 0 true none "g"
      = get_remaining_summaries stEmpty 0 false none "g" ∧
    (get_remaining_summaries stEmpty 0 true none "g").fst
      = max 0 ((GUEST_LIMIT : ℤ) - (prune 0 (stEmpty.guest_summary_usage "g")).length)) :=
  ⟨rfl,
   verified_token_without_uid_uses_guest_bucket (fun _ => Except.ok none) md5stub stEmpty
     StoreState.unavailable 0 "g" reqDemo (Except.error "x") rfl⟩
